import Mathlib

/-!
Verification of the GitHub API gateway and webhook dispatcher of
ghe-policy-check (src/ghe_policy_check/common/github_api/).

The Python sources are shallowly embedded: pure helpers become Lean
functions, the stateful request executor becomes an explicit step function
on a state record together with a fuel-indexed driver, and exceptions
become explicit error values.  String operations used by the source
(str.lower, substring membership, str.split) are re-implemented over
character lists so that all definitions reduce in the kernel.
-/

namespace Ghe

/-- Embeds Python str.lower for the ASCII identifiers used by the
dispatcher (event and action names). -/
def lowerStr (s : String) : String := String.mk (s.data.map Char.toLower)

/-- Helper for the substring test: list prefix check. -/
def isPrefixOfL : List Char → List Char → Bool
  | [], _ => true
  | _ :: _, [] => false
  | a :: as, b :: bs => a == b && isPrefixOfL as bs

/-- Helper for the substring test: list infix check. -/
def isInfixOfL : List Char → List Char → Bool
  | n, [] => isPrefixOfL n []
  | n, h :: hs => isPrefixOfL n (h :: hs) || isInfixOfL n hs

/-- Embeds the Python membership test "needle in hay" on strings. -/
def strContains (hay needle : String) : Bool := isInfixOfL needle.data hay.data

/-- Accumulator for splitOnEq. -/
def splitOnEqAux : List Char → List Char → List String
  | [], acc => [String.mk acc.reverse]
  | c :: cs, acc =>
    if c == '=' then String.mk acc.reverse :: splitOnEqAux cs []
    else splitOnEqAux cs (c :: acc)

/-- Embeds Python str.split on the single separator character used by
secure_github_request: signature.split with the equals sign. -/
def splitOnEq (s : String) : List String := splitOnEqAux s.data []

/-- Embeds Python truthiness of an Optional string: None and the empty
string are falsy, every other string is truthy. -/
def optStrTruthy : Option String → Bool
  | none => false
  | some s => s != ""

/-- Fixed message recognised by raise_error as an account suspension. -/
def suspendedMessage : String := "Sorry. Your account was suspended."

/-- Fixed message recognised by raise_error as a repository block. -/
def blockedMessage : String := "Repository access blocked"

/-- Fixed message recognised by raise_error as bad credentials. -/
def badCredentialsMessage : String := "Bad credentials"

/-- Outcome of GitHubInstance.raise_error: one constructor per exception
class the Python code can raise there, plus typeError for the crash of
the membership test when the JSON body carries no message field. -/
inductive ErrClass where
  | clientError (message : Option String)
  | notFound (message : Option String)
  | accountSuspended (message : String)
  | repositoryBlocked (message : String)
  | badCredentials (message : String)
  | rateLimited (message : String)
  | httpError (status : Nat)
  | typeError
deriving DecidableEq, Repr

/-- Embeds GitHubInstance.raise_error.  The status checks use
codes.unprocessable_entity = 422 and codes.not_found = 404; the message
is the optional "message" field of the JSON body (response.json().get).
When the message is absent, the three equality tests are False in Python
and the final membership test "rate limit" in None raises a TypeError. -/
def raise_error (status : Nat) (message : Option String) : ErrClass :=
  if status = 422 then ErrClass.clientError message
  else if status = 404 then ErrClass.notFound message
  else if message = some suspendedMessage then ErrClass.accountSuspended suspendedMessage
  else if message = some blockedMessage then ErrClass.repositoryBlocked blockedMessage
  else if message = some badCredentialsMessage then ErrClass.badCredentials badCredentialsMessage
  else
    match message with
    | none => ErrClass.typeError
    | some m =>
      if strContains m "rate limit" then ErrClass.rateLimited m else ErrClass.httpError status

/-- Embeds GitHubInstance.handle_error: response.raise_for_status raises
exactly for status codes 400 to 599, in which case raise_error classifies
the failure; otherwise the response is returned unchanged (none). -/
def handle_error (status : Nat) (message : Option String) : Option ErrClass :=
  if 400 ≤ status ∧ status < 600 then some (raise_error status message) else none

/-- Outcomes of the Error Classifier as the spec section 4.2 lists them. -/
inductive SpecOutcome where
  | clientError
  | notFound
  | accountSuspended
  | repositoryBlocked
  | badCredentials
  | rateLimited
  | unclassified
deriving DecidableEq, Repr

/-- Spec-side classifier, written from the words of spec section 4.2 for
the refinement comparison: status checks 422 then 404 first, then the
message checks in their fixed order, first match wins, and the fallback
rethrows the original transport error (unclassified). -/
def specClassify (status : Nat) (message : String) : SpecOutcome :=
  if status = 422 then SpecOutcome.clientError
  else if status = 404 then SpecOutcome.notFound
  else if message = suspendedMessage then SpecOutcome.accountSuspended
  else if message = blockedMessage then SpecOutcome.repositoryBlocked
  else if message = badCredentialsMessage then SpecOutcome.badCredentials
  else if strContains message "rate limit" then SpecOutcome.rateLimited
  else SpecOutcome.unclassified

/-- Maps a code-side classification onto the spec's outcome vocabulary;
the typeError crash has no spec counterpart. -/
def ErrClass.toSpec : ErrClass → Option SpecOutcome
  | ErrClass.clientError _ => some SpecOutcome.clientError
  | ErrClass.notFound _ => some SpecOutcome.notFound
  | ErrClass.accountSuspended _ => some SpecOutcome.accountSuspended
  | ErrClass.repositoryBlocked _ => some SpecOutcome.repositoryBlocked
  | ErrClass.badCredentials _ => some SpecOutcome.badCredentials
  | ErrClass.rateLimited _ => some SpecOutcome.rateLimited
  | ErrClass.httpError _ => some SpecOutcome.unclassified
  | ErrClass.typeError => none

/-- Mutable state of a GitHubInstance: the token list, the Authorization
header value, and the optional impersonated user.  The base url and the
Accept headers never change and are omitted. -/
structure GHState where
  tokens : List String
  authorization : String
  impersonating : Option String
deriving DecidableEq, Repr

/-- Authorization header derived from a token, as the f-string builds it. -/
def mkAuth (token : String) : String := "Bearer " ++ token

/-- Front token of the credential list (tokens[0]); total with a default
that is never reached while the list is non-empty. -/
def front (l : List String) : String := l.headD ""

/-- Embeds GitHubInstance.__init__: an empty token list is rejected with
ValueError("At least one github token must be provided"); otherwise the
Authorization header is set from the front token. -/
def ghInit (tokens : List String) (impersonating : Option String) : Except String GHState :=
  match tokens with
  | [] => Except.error "At least one github token must be provided"
  | t :: ts => Except.ok ⟨t :: ts, mkAuth t, impersonating⟩

/-- Embeds GitHubInstance.rotate_token: pop the front token, append it at
the back, and refresh the Authorization header from the new front token. -/
def rotate_token (s : GHState) : GHState :=
  match s.tokens with
  | [] => s
  | t :: ts => ⟨ts ++ [t], mkAuth (front (ts ++ [t])), s.impersonating⟩

/-- Invariant of the Credential Set: the token list is non-empty and the
Authorization header is derived from its front token. -/
def wfState (s : GHState) : Prop :=
  s.tokens ≠ [] ∧ s.authorization = mkAuth (front s.tokens)

/-- HTTP response as the gateway observes it: status code, optional
"message" field of the JSON body, the item array of the body, and the
url of the Link header relation rel="next" (if any). -/
structure Resp where
  status : Nat
  message : Option String
  items : List Nat
  nextUrl : Option String
deriving DecidableEq, Repr

/-- Environment of one get_impersonation_token call: the token contained
in the minting response and the status and message of the raw rate-limit
probe made to validate that token. -/
structure MintEnv where
  token : String
  probeStatus : Nat
  probeMessage : Option String
deriving DecidableEq, Repr

/-- Environment of one request attempt: the HTTP response the verb call
produces, the reset epoch time the rate-limit endpoint would report, the
current wall clock, and the environment of a potential token minting. -/
structure AttemptEnv where
  resp : Resp
  resetTime : Int
  now : Int
  mint : MintEnv
deriving DecidableEq, Repr

/-- Observable side effects of the executor and impersonation manager. -/
inductive Eff where
  | rotate
  | fetchReset
  | sleepFor (seconds : Int)
  | mintAttempt (user : String)
  | unsuspendUser (user : String) (reason : String)
  | suspendUser (user : String) (reason : String)
  | yieldScope (inst : GHState)
deriving DecidableEq, Repr

/-- Errors the request executor can let escape. -/
inductive ReqErr where
  | classified (e : ErrClass)
  | invalidImpersonation
deriving DecidableEq, Repr

/-- Result of one unrolding of GitHubInstance.request: return the
response, raise an error, fail fatally, or recurse with a new state and
retry counter (after a rotation, after a sleep, or after replacing the
credential set). -/
inductive StepResult where
  | ret (resp : Resp)
  | throwErr (e : ReqErr)
  | fatalRateLimit (msg : String)
  | recurseRotated (s : GHState) (retry : Nat)
  | recurseSlept (s : GHState) (retry : Nat)
  | recurseReplaced (s : GHState) (retry : Nat)
deriving DecidableEq, Repr

/-- Embeds GitHubInstance.get_impersonation_token: an instance that is
already impersonating (Python truthiness) raises
InvalidImpersonationError before anything else; otherwise the token from
the minting response is validated by a raw rate-limit probe whose
failure is classified by raise_error. -/
def get_impersonation_token (s : GHState) (username : String) (env : MintEnv) :
    List Eff × Except ReqErr String :=
  if optStrTruthy s.impersonating then ([], Except.error ReqErr.invalidImpersonation)
  else
    match handle_error env.probeStatus env.probeMessage with
    | some e => ([Eff.mintAttempt username], Except.error (ReqErr.classified e))
    | none => ([Eff.mintAttempt username], Except.ok env.token)

/-- Embeds GitHubInstance._handle_rate_limit_exception: rotate and
recurse while retry is below len(tokens) - 1, fail fatally once retry
exceeds 2 * len(tokens), otherwise fetch the reset time and sleep until
5 seconds past it (the ValueError of a negative sleep is swallowed, so
the slept duration is clipped at zero) and recurse without rotating. -/
def handleRateLimit (s : GHState) (retry : Nat) (env : AttemptEnv) : List Eff × StepResult :=
  if (retry : Int) < (s.tokens.length : Int) - 1 then
    ([Eff.rotate], StepResult.recurseRotated (rotate_token s) (retry + 1))
  else if retry > 2 * s.tokens.length then
    ([], StepResult.fatalRateLimit "Rate limit retries failed")
  else
    ([Eff.fetchReset,
      Eff.sleepFor (if env.resetTime - env.now + 5 < 0 then 0 else env.resetTime - env.now + 5)],
     StepResult.recurseSlept s (retry + 1))

/-- Embeds one unrolding of GitHubInstance.request: issue the verb call,
classify a failure with handle_error, recover from a rate limit via
_handle_rate_limit_exception, recover from bad credentials on a first
retry of an impersonating instance by re-minting a token (a call of
get_impersonation_token on this very instance), and propagate every
other error. -/
def requestStep (s : GHState) (retry : Nat) (env : AttemptEnv) : List Eff × StepResult :=
  match handle_error env.resp.status env.resp.message with
  | none => ([], StepResult.ret env.resp)
  | some (ErrClass.rateLimited _) => handleRateLimit s retry env
  | some (ErrClass.badCredentials m) =>
    if !optStrTruthy s.impersonating || retry != 0 then
      ([], StepResult.throwErr (ReqErr.classified (ErrClass.badCredentials m)))
    else
      match get_impersonation_token s (s.impersonating.getD "") env.mint with
      | (tr, Except.error e) => (tr, StepResult.throwErr e)
      | (tr, Except.ok tok) =>
        (tr, StepResult.recurseReplaced ⟨[tok], mkAuth tok, s.impersonating⟩ 1)
  | some e => ([], StepResult.throwErr (ReqErr.classified e))

/-- State carried into a recursive call of request, if any. -/
def stepNextState : StepResult → Option GHState
  | StepResult.recurseRotated s _ => some s
  | StepResult.recurseSlept s _ => some s
  | StepResult.recurseReplaced s _ => some s
  | _ => none

/-- Final outcome of a full run of GitHubInstance.request. -/
inductive RunResult where
  | success (s : GHState) (resp : Resp)
  | failure (s : GHState) (e : ReqErr)
  | fatalErr (s : GHState) (msg : String)
  | outOfFuel (s : GHState)
deriving DecidableEq, Repr

/-- Gateway state a run ends in. -/
def runState : RunResult → GHState
  | RunResult.success s _ => s
  | RunResult.failure s _ => s
  | RunResult.fatalErr s _ => s
  | RunResult.outOfFuel s => s

/-- Fuel-indexed driver of the recursive request: attempt k draws its
environment from the oracle and the step result decides between
returning, raising and recursing. -/
def requestRun : Nat → GHState → Nat → (Nat → AttemptEnv) → Nat → RunResult
  | 0, s, _, _, _ => RunResult.outOfFuel s
  | fuel + 1, s, retry, oracle, k =>
    match requestStep s retry (oracle k) with
    | (_, StepResult.ret resp) => RunResult.success s resp
    | (_, StepResult.throwErr e) => RunResult.failure s e
    | (_, StepResult.fatalRateLimit msg) => RunResult.fatalErr s msg
    | (_, StepResult.recurseRotated s' r') => requestRun fuel s' r' oracle (k + 1)
    | (_, StepResult.recurseSlept s' r') => requestRun fuel s' r' oracle (k + 1)
    | (_, StepResult.recurseReplaced s' r') => requestRun fuel s' r' oracle (k + 1)

/-- Reason string passed to unsuspend_user by impersonate_user. -/
def unsuspendReason : String := "Temporary unsuspension for impersonation"

/-- Reason string passed to suspend_user on scope exit. -/
def resuspendReason : String := "Resuspending after temporary suspension."

/-- Outcome of an impersonate_user scope: the body completed, the body
raised (and the exception propagates), or acquiring the scope failed. -/
inductive ImpOutcome where
  | completed
  | bodyRaised
  | errored (e : ReqErr)
deriving DecidableEq, Repr

/-- Embeds the context manager GitHubInstance.impersonate_user: mint a
token; on GithubAccountSuspendedException enter
temporarily_unsuspend_user (unsuspend, re-mint, yield, and suspend again
in a finally block on every exit path); otherwise yield directly with no
teardown.  The scope body is abstracted by the flag bodyOk (false means
the body raises); m1 and m2 are the environments of the two potential
minting calls. -/
def impersonate_user (s : GHState) (username : String) (m1 m2 : MintEnv) (bodyOk : Bool) :
    List Eff × ImpOutcome :=
  match get_impersonation_token s username m1 with
  | (tr1, Except.ok tok) =>
    (tr1 ++ [Eff.yieldScope ⟨[tok], mkAuth tok, some username⟩],
     if bodyOk then ImpOutcome.completed else ImpOutcome.bodyRaised)
  | (tr1, Except.error (ReqErr.classified (ErrClass.accountSuspended _))) =>
    let pre := tr1 ++ [Eff.unsuspendUser username unsuspendReason]
    match get_impersonation_token s username m2 with
    | (tr2, Except.ok tok) =>
      (pre ++ tr2 ++
        [Eff.yieldScope ⟨[tok], mkAuth tok, some username⟩,
         Eff.suspendUser username resuspendReason],
       if bodyOk then ImpOutcome.completed else ImpOutcome.bodyRaised)
    | (tr2, Except.error e) =>
      (pre ++ tr2 ++ [Eff.suspendUser username resuspendReason], ImpOutcome.errored e)
  | (tr1, Except.error e) => (tr1, ImpOutcome.errored e)

/-- Outcome of a pagination run. -/
inductive PagOutcome where
  | finished
  | aborted (e : ReqErr)
  | fatalStop (msg : String)
  | noFuel
deriving DecidableEq, Repr

/-- Result of a pagination run: the items yielded, the statuses logged by
the except-branch around raise_for_status, and how the run ended. -/
structure PagResult where
  items : List Nat
  logs : List Nat
  outcome : PagOutcome
deriving DecidableEq, Repr

/-- Embeds the while-loop of GitHubInstance.get_paginated_response: fetch
the page via self.get (an exception escaping it aborts the generator),
log non-2xx statuses of the returned response, yield the page's items
and follow the rel="next" link until it is absent. -/
def pagLoop (fetch : String → RunResult) : Nat → Option String → PagResult
  | _, none => ⟨[], [], PagOutcome.finished⟩
  | 0, some _ => ⟨[], [], PagOutcome.noFuel⟩
  | fuel + 1, some u =>
    match fetch u with
    | RunResult.failure _ e => ⟨[], [], PagOutcome.aborted e⟩
    | RunResult.fatalErr _ msg => ⟨[], [], PagOutcome.fatalStop msg⟩
    | RunResult.outOfFuel _ => ⟨[], [], PagOutcome.noFuel⟩
    | RunResult.success _ resp =>
      let logs := if 400 ≤ resp.status ∧ resp.status < 600 then [resp.status] else []
      let rest := pagLoop fetch fuel resp.nextUrl
      ⟨resp.items ++ rest.items, logs ++ rest.logs, rest.outcome⟩

/-- Embeds GitHubInstance.get_paginated_response: append the page-size
parameter (with an ampersand if the url is already parameterized) and
run the pagination loop. -/
def get_paginated_response (fetch : String → RunResult) (fuel : Nat) (url : String) : PagResult :=
  pagLoop fetch fuel
    (some (if strContains url "?" then url ++ "&per_page=100" else url ++ "?per_page=100"))

/-- Errors of the webhook dispatcher; unhandledEvent mirrors the class
UnhandledEventException, which the code defines and the ingress catches
but dispatch never raises. -/
inductive DispatchErr where
  | invalidSignature
  | operationNotSupported
  | valueError
  | unhandledEvent (msg : String)
  | unhandledAction (msg : String)
deriving DecidableEq, Repr

/-- Entry of the Handler Registry: a catch-all handler for an event, or a
mapping from action name to handler. -/
inductive HEntry (H : Type) where
  | catchAll (h : H)
  | actions (m : List (String × H))
deriving DecidableEq, Repr

/-- Python dict lookup on an insertion-ordered association list. -/
def dictGet {α : Type} : List (String × α) → String → Option α
  | [], _ => none
  | (k', v) :: rest, k => if k' == k then some v else dictGet rest k

/-- Python dict assignment: update in place if the key exists, append
otherwise. -/
def dictSet {α : Type} : List (String × α) → String → α → List (String × α)
  | [], k, v => [(k, v)]
  | (k', v') :: rest, k, v =>
    if k' == k then (k, v) :: rest else (k', v') :: dictSet rest k v

/-- Embeds WebhookDispatcher.register.  With a truthy action the event
slot is registry.setdefault(event.lower(), dict()); a callable slot is
rejected with ValueError, otherwise the handler is stored under
action.lower().  With no action (or a falsy one) the handler is stored
as catch-all directly under the event name, which is not lower-cased. -/
def register {H : Type} (event : String) (action : Option String) (handler : H)
    (reg : List (String × HEntry H)) : Except String (List (String × HEntry H)) :=
  if optStrTruthy action then
    let key := lowerStr event
    match dictGet reg key with
    | some (HEntry.catchAll _) =>
      Except.error "Trying to register action handler to event with existing event handler"
    | some (HEntry.actions m) =>
      Except.ok (dictSet reg key (HEntry.actions (dictSet m (lowerStr (action.getD "")) handler)))
    | none =>
      Except.ok (dictSet reg key (HEntry.actions (dictSet [] (lowerStr (action.getD "")) handler)))
  else
    Except.ok (dictSet reg event (HEntry.catchAll handler))

/-- Embeds the routing part of WebhookDispatcher.dispatch: look up
event.lower(); a missing (or falsy) slot raises
UnhandledActionException("Unhandled event: ..."), a callable slot
handles every action, and an action map requires a truthy action that is
present under action.lower(). -/
def route {H : Type} (reg : List (String × HEntry H)) (event : String) (action : Option String) :
    Except DispatchErr H :=
  match dictGet reg (lowerStr event) with
  | none => Except.error (DispatchErr.unhandledAction ("Unhandled event: " ++ event))
  | some (HEntry.actions []) => Except.error (DispatchErr.unhandledAction ("Unhandled event: " ++ event))
  | some (HEntry.catchAll h) => Except.ok h
  | some (HEntry.actions (p :: ps)) =>
    if !optStrTruthy action then
      Except.error (DispatchErr.unhandledAction ("Unhandled event: " ++ event))
    else
      match dictGet (p :: ps) (lowerStr (action.getD "")) with
      | none =>
        Except.error
          (DispatchErr.unhandledAction ("Unhandled action: " ++ event ++ "." ++ action.getD ""))
      | some h => Except.ok h

/-- Embeds WebhookDispatcher.secure_github_request.  The HMAC-SHA1 hex
digest of the body under the shared secret is abstracted as macHex.  A
missing signature raises InvalidSignature; the tuple unpacking of
signature.split raises ValueError unless the split has exactly two
parts; an algorithm prefix other than sha1 raises
OperationNotSupportedException; a digest mismatch raises
InvalidSignature. -/
def secure_github_request (macHex : String) (signature : Option String) : Option DispatchErr :=
  match signature with
  | none => some DispatchErr.invalidSignature
  | some sig =>
    match splitOnEq sig with
    | [shaName, signatureBody] =>
      if shaName != "sha1" then some DispatchErr.operationNotSupported
      else if macHex != signatureBody then some DispatchErr.invalidSignature
      else none
    | _ => some DispatchErr.valueError

/-- Embeds WebhookDispatcher.dispatch: verify the signature, then route
the event and action through the Handler Registry. -/
def dispatch {H : Type} (reg : List (String × HEntry H)) (macHex : String) (event : String)
    (action : Option String) (signature : Option String) : Except DispatchErr H :=
  match secure_github_request macHex signature with
  | some e => Except.error e
  | none => route reg event action

/-- Attempt environment of a rate-limited response, used as witness input. -/
def envRateLimited : AttemptEnv :=
  ⟨⟨403, some "API rate limit exceeded", [], none⟩, 100, 50, ⟨"tok", 200, none⟩⟩

/-- Attempt environment of a bad-credentials response with a perfectly
healthy minting environment, used as witness input. -/
def envBadCreds : AttemptEnv :=
  ⟨⟨401, some badCredentialsMessage, [], none⟩, 0, 0, ⟨"fresh", 200, none⟩⟩

/-- Attempt environment of a successful response, used as witness input. -/
def envOk : AttemptEnv := ⟨⟨200, none, [1, 2], none⟩, 0, 0, ⟨"tok", 200, none⟩⟩

/-- Attempt environment of a 404 page response carrying items and a next
link, used as counterexample input for the pagination claim. -/
def env404 : AttemptEnv := ⟨⟨404, some "Not Found", [1, 2], some "page2"⟩, 0, 0, ⟨"tok", 200, none⟩⟩

/-- Single-token gateway state used in concrete runs. -/
def stateOneToken : GHState := ⟨["t"], mkAuth "t", none⟩

/-- Page fetcher whose every page succeeds, used as witness input. -/
def fetchAlwaysOk : String → RunResult :=
  fun _ => RunResult.success stateOneToken ⟨200, none, [1, 2], none⟩

/-- Page fetcher built from the request driver against a server whose
every page answers 404, used as counterexample input. -/
def fetchNotFound : String → RunResult :=
  fun _ => requestRun 3 stateOneToken 0 (fun _ => env404) 0

lemma rotate_token_wf (s : GHState) (h : wfState s) : wfState (rotate_token s) := by
  rcases hs : s.tokens with _ | ⟨t, rest⟩
  · exact absurd hs h.1
  · constructor
    · simp [rotate_token, hs]
    · simp [rotate_token, hs]

lemma requestStep_next_wf (s : GHState) (retry : Nat) (env : AttemptEnv) (s' : GHState)
    (hwf : wfState s) (h : stepNextState (requestStep s retry env).2 = some s') : wfState s' := by
  rcases hce : handle_error env.resp.status env.resp.message with _ | e
  · have hr : requestStep s retry env = ([], StepResult.ret env.resp) := by
      unfold requestStep; rw [hce]
    rw [hr] at h
    simp [stepNextState] at h
  · unfold requestStep at h
    rw [hce] at h
    cases e <;> simp only [] at h
    case clientError => simp [stepNextState] at h
    case notFound => simp [stepNextState] at h
    case accountSuspended => simp [stepNextState] at h
    case repositoryBlocked => simp [stepNextState] at h
    case httpError => simp [stepNextState] at h
    case typeError => simp [stepNextState] at h
    case rateLimited m =>
      unfold handleRateLimit at h
      split_ifs at h
      · simp only [stepNextState, Option.some.injEq] at h
        rw [← h]
        exact rotate_token_wf s hwf
      · simp [stepNextState] at h
      · simp only [stepNextState, Option.some.injEq] at h
        rw [← h]
        exact hwf
      · simp only [stepNextState, Option.some.injEq] at h
        rw [← h]
        exact hwf
    case badCredentials m =>
      split_ifs at h
      · simp [stepNextState] at h
      · rcases hgt : get_impersonation_token s (s.impersonating.getD "") env.mint with ⟨tr2, res⟩
        rw [hgt] at h
        cases res with
        | error e2 => simp [stepNextState] at h
        | ok tok =>
          simp only [stepNextState, Option.some.injEq] at h
          rw [← h]
          exact ⟨by simp, rfl⟩

lemma requestStep_ret_handle_error (s : GHState) (retry : Nat) (env : AttemptEnv)
    (tr : List Eff) (r : Resp) (h : requestStep s retry env = (tr, StepResult.ret r)) :
    handle_error r.status r.message = none := by
  rcases hce : handle_error env.resp.status env.resp.message with _ | e
  · have hr : requestStep s retry env = ([], StepResult.ret env.resp) := by
      unfold requestStep; rw [hce]
    rw [hr] at h
    simp only [Prod.mk.injEq] at h
    obtain ⟨-, h2⟩ := h
    injection h2 with h3
    rw [← h3]
    exact hce
  · exfalso
    unfold requestStep at h
    rw [hce] at h
    cases e <;> simp only [] at h
    case clientError => simp at h
    case notFound => simp at h
    case accountSuspended => simp at h
    case repositoryBlocked => simp at h
    case httpError => simp at h
    case typeError => simp at h
    case rateLimited m =>
      unfold handleRateLimit at h
      split_ifs at h <;> simp at h
    case badCredentials m =>
      split_ifs at h
      · simp at h
      · rcases hgt : get_impersonation_token s (s.impersonating.getD "") env.mint with ⟨tr2, res⟩
        rw [hgt] at h
        cases res <;> simp at h

lemma requestRun_success_handle_error (fuel : Nat) :
    ∀ (s : GHState) (retry : Nat) (oracle : Nat → AttemptEnv) (k : Nat) (s' : GHState) (r : Resp),
      requestRun fuel s retry oracle k = RunResult.success s' r →
      handle_error r.status r.message = none := by
  induction fuel with
  | zero =>
    intro s retry oracle k s' r h
    simp [requestRun] at h
  | succ n ih =>
    intro s retry oracle k s' r h
    unfold requestRun at h
    rcases hst : requestStep s retry (oracle k) with ⟨tr, res⟩
    rw [hst] at h
    cases res <;> simp only [] at h
    case ret resp =>
      injection h with h1 h2
      rw [← h2]
      exact requestStep_ret_handle_error s retry (oracle k) tr resp hst
    case throwErr => simp at h
    case fatalRateLimit => simp at h
    case recurseRotated s2 r2 => exact ih s2 r2 oracle (k + 1) s' r h
    case recurseSlept s2 r2 => exact ih s2 r2 oracle (k + 1) s' r h
    case recurseReplaced s2 r2 => exact ih s2 r2 oracle (k + 1) s' r h

/-- Claim C1: on a rate-limited response, request with retry below
tokenCount - 1 performs exactly one rotation and recurses with retry + 1
without sleeping; with retry above 2 * tokenCount it fails fatally with
the "Rate limit retries failed" error without sleeping; otherwise it
fetches the reset epoch, sleeps until 5 seconds past it (clipping a
negative duration to a no-op) and recurses with retry + 1 without
rotating. -/
theorem requestStep_rate_limit_policy (s : GHState) (retry : Nat) (env : AttemptEnv) (m : String)
    (hcls : handle_error env.resp.status env.resp.message = some (ErrClass.rateLimited m)) :
    ((retry : Int) < (s.tokens.length : Int) - 1 →
      requestStep s retry env =
        ([Eff.rotate], StepResult.recurseRotated (rotate_token s) (retry + 1))) ∧
    (¬ ((retry : Int) < (s.tokens.length : Int) - 1) → retry > 2 * s.tokens.length →
      requestStep s retry env = ([], StepResult.fatalRateLimit "Rate limit retries failed")) ∧
    (¬ ((retry : Int) < (s.tokens.length : Int) - 1) → ¬ (retry > 2 * s.tokens.length) →
      requestStep s retry env =
        ([Eff.fetchReset,
          Eff.sleepFor (if env.resetTime - env.now + 5 < 0 then 0 else env.resetTime - env.now + 5)],
         StepResult.recurseSlept s (retry + 1))) := by
  have hstep : requestStep s retry env = handleRateLimit s retry env := by
    unfold requestStep; rw [hcls]
  refine ⟨fun h1 => ?_, fun h1 h2 => ?_, fun h1 h2 => ?_⟩
  · rw [hstep]; unfold handleRateLimit; rw [if_pos h1]
  · rw [hstep]; unfold handleRateLimit; rw [if_neg h1, if_pos h2]
  · rw [hstep]; unfold handleRateLimit; rw [if_neg h1, if_neg h2]

/-- Witness for claim C1 at concrete inputs: three tokens and retry 0
rotate; one token and retry 3 fail fatally; one token and retry 1 sleep
for 55 seconds and recurse. -/
theorem requestStep_rate_limit_policy_witness :
    requestStep ⟨["a", "b", "c"], mkAuth "a", none⟩ 0 envRateLimited =
      ([Eff.rotate], StepResult.recurseRotated (rotate_token ⟨["a", "b", "c"], mkAuth "a", none⟩) 1) ∧
    requestStep ⟨["a"], mkAuth "a", none⟩ 3 envRateLimited =
      ([], StepResult.fatalRateLimit "Rate limit retries failed") ∧
    requestStep ⟨["a"], mkAuth "a", none⟩ 1 envRateLimited =
      ([Eff.fetchReset, Eff.sleepFor 55], StepResult.recurseSlept ⟨["a"], mkAuth "a", none⟩ 2) := by
  refine ⟨?_, ?_, ?_⟩
  · exact (requestStep_rate_limit_policy ⟨["a", "b", "c"], mkAuth "a", none⟩ 0 envRateLimited
      "API rate limit exceeded" (by decide)).1 (by decide)
  · exact (requestStep_rate_limit_policy ⟨["a"], mkAuth "a", none⟩ 3 envRateLimited
      "API rate limit exceeded" (by decide)).2.1 (by decide) (by decide)
  · exact ((requestStep_rate_limit_policy ⟨["a"], mkAuth "a", none⟩ 1 envRateLimited
      "API rate limit exceeded" (by decide)).2.2 (by decide) (by decide)).trans (by decide)

/-- Claim C2 (code bug evidence): on a bad-credentials response, the
recovery path of an impersonating instance at retry 0 calls
get_impersonation_token on that very instance, whose impersonation guard
raises InvalidImpersonationError immediately, so no token is minted and
no retry happens; a non-impersonating instance and a nonzero retry
propagate the bad-credentials error as the claim says. -/
theorem requestStep_bad_credentials_dead_refresh :
    requestStep ⟨["t0"], mkAuth "t0", some "alice"⟩ 0 envBadCreds =
      ([], StepResult.throwErr ReqErr.invalidImpersonation) ∧
    requestStep ⟨["t0"], mkAuth "t0", none⟩ 0 envBadCreds =
      ([], StepResult.throwErr (ReqErr.classified (ErrClass.badCredentials badCredentialsMessage))) ∧
    requestStep ⟨["t0"], mkAuth "t0", some "alice"⟩ 1 envBadCreds =
      ([], StepResult.throwErr (ReqErr.classified (ErrClass.badCredentials badCredentialsMessage))) := by
  decide

/-- Claim C3 counterexample: at status 500 with no message field in the
body, the classifier produces the TypeError crash instead of re-raising
the original transport error as the claim requires of the fallback. -/
theorem raise_error_counterexample_missing_message :
    raise_error 500 none = ErrClass.typeError ∧ raise_error 500 none ≠ ErrClass.httpError 500 := by
  decide

/-- Claim C3 (amended): for every failed response whose JSON body does
carry a message string, the classifier realises exactly the spec's
first-match-wins order: 422 to ClientError, 404 to NotFound, the fixed
suspension, block and credentials strings, the "rate limit" substring,
and otherwise the re-raised transport error. -/
theorem raise_error_refines_spec_classifier (status : Nat) (m : String) :
    (raise_error status (some m)).toSpec = some (specClassify status m) := by
  unfold raise_error specClassify
  split_ifs <;> simp_all [ErrClass.toSpec]

/-- Claim C9: for every failed response whose status is neither 422 nor
404 and whose JSON body has no message field, the classifier does not
re-raise the original error: the membership test on the absent message
yields the TypeError crash. -/
theorem handle_error_missing_message_type_error (status : Nat) (h4 : 400 ≤ status)
    (h6 : status < 600) (h422 : status ≠ 422) (h404 : status ≠ 404) :
    handle_error status none = some ErrClass.typeError ∧
    raise_error status none ≠ ErrClass.httpError status := by
  constructor
  · unfold handle_error
    rw [if_pos ⟨h4, h6⟩]
    unfold raise_error
    rw [if_neg h422, if_neg h404]
    simp
  · unfold raise_error
    rw [if_neg h422, if_neg h404]
    simp

/-- Witness for claim C9 at status 503. -/
theorem handle_error_missing_message_type_error_witness :
    handle_error 503 none = some ErrClass.typeError ∧
    raise_error 503 none ≠ ErrClass.httpError 503 :=
  handle_error_missing_message_type_error 503 (by decide) (by decide) (by decide) (by decide)

/-- Claim C10: a present signature string that does not split into
exactly two parts around the equals sign makes secure_github_request
fail with the ValueError of tuple unpacking, not with InvalidSignature
or OperationNotSupported. -/
theorem secure_github_request_malformed_signature (macHex sig : String)
    (h : (splitOnEq sig).length ≠ 2) :
    secure_github_request macHex (some sig) = some DispatchErr.valueError := by
  unfold secure_github_request
  dsimp only
  rcases hsp : splitOnEq sig with _ | ⟨a, _ | ⟨b, _ | ⟨c, rest⟩⟩⟩
  · rfl
  · rfl
  · exact absurd (show (splitOnEq sig).length = 2 by rw [hsp] ; rfl) h
  · rfl

/-- Witness for claim C10: a signature with no equals sign and one whose
digest itself contains an equals sign. -/
theorem secure_github_request_malformed_signature_witness :
    (splitOnEq "abcd").length ≠ 2 ∧
    secure_github_request "m" (some "abcd") = some DispatchErr.valueError ∧
    (splitOnEq "sha1=ab=cd").length ≠ 2 ∧
    secure_github_request "m" (some "sha1=ab=cd") = some DispatchErr.valueError :=
  ⟨by decide, secure_github_request_malformed_signature "m" "abcd" (by decide), by decide,
   secure_github_request_malformed_signature "m" "sha1=ab=cd" (by decide)⟩

/-- Claim C6 (code bug evidence): dispatch with a valid signature and an
event absent from the registry fails with UnhandledActionException
(carrying an "Unhandled event" message), not with the distinct
UnhandledEventException the spec requires. -/
theorem dispatch_unregistered_event_unhandled_action :
    dispatch ([] : List (String × HEntry Nat)) "beef" "push" none (some "sha1=beef") =
      Except.error (DispatchErr.unhandledAction "Unhandled event: push") ∧
    DispatchErr.unhandledAction "Unhandled event: push" ≠
      DispatchErr.unhandledEvent "Unhandled event: push" :=
  ⟨rfl, by decide⟩

/-- Claim C7 counterexample: registering a catch-all handler stores the
event key verbatim, not lower-cased, so the case-insensitive dispatch
lookup of the very event just registered misses its slot. -/
theorem register_catch_all_counterexample :
    register "Push" none (7 : Nat) [] = Except.ok [("Push", HEntry.catchAll 7)] ∧
    dictGet [("Push", HEntry.catchAll (7 : Nat))] (lowerStr "Push") = none ∧
    route [("Push", HEntry.catchAll (7 : Nat))] "Push" none =
      Except.error (DispatchErr.unhandledAction "Unhandled event: Push") :=
  ⟨rfl, by decide, rfl⟩

/-- Claim C7 (amended): action registrations store the lower-cased event
and action keys (and a fresh action registration is found by the
case-insensitive dispatch lookup), a catch-all registration stores the
event name verbatim without lower-casing, and registering an action
handler onto a lower-cased slot already holding a catch-all handler is
rejected with an error. -/
theorem register_key_casing_policy {H : Type} :
    (∀ (e a : String) (hdl : H) (reg : List (String × HEntry H)) (m : List (String × H)),
      a ≠ "" → dictGet reg (lowerStr e) = some (HEntry.actions m) →
      register e (some a) hdl reg =
        Except.ok (dictSet reg (lowerStr e) (HEntry.actions (dictSet m (lowerStr a) hdl)))) ∧
    (∀ (e a : String) (hdl : H) (reg : List (String × HEntry H)),
      a ≠ "" → dictGet reg (lowerStr e) = none →
      register e (some a) hdl reg =
        Except.ok (dictSet reg (lowerStr e) (HEntry.actions [(lowerStr a, hdl)]))) ∧
    (∀ (e : String) (hdl : H) (reg : List (String × HEntry H)),
      register e none hdl reg = Except.ok (dictSet reg e (HEntry.catchAll hdl))) ∧
    (∀ (e a : String) (hdl : H) (reg : List (String × HEntry H)) (h0 : H),
      a ≠ "" → dictGet reg (lowerStr e) = some (HEntry.catchAll h0) →
      register e (some a) hdl reg =
        Except.error "Trying to register action handler to event with existing event handler") ∧
    (∀ (e a E A : String) (hdl : H),
      a ≠ "" → A ≠ "" → lowerStr E = lowerStr e → lowerStr A = lowerStr a →
      route (dictSet [] (lowerStr e) (HEntry.actions (dictSet [] (lowerStr a) hdl))) E (some A) =
        Except.ok hdl) := by
  refine ⟨?_, ?_, ?_, ?_, ?_⟩
  · intro e a hdl reg m ha hget
    simp [register, optStrTruthy, ha, hget]
  · intro e a hdl reg ha hget
    simp only [register, optStrTruthy, ha, hget, ne_eq, bne_iff_ne, not_false_iff, if_true,
      Option.getD_some]
    rfl
  · intro e hdl reg
    simp [register, optStrTruthy]
  · intro e a hdl reg h0 ha hget
    simp [register, optStrTruthy, ha, hget]
  · intro e a E A hdl ha hA hE hA2
    simp [route, dictGet, dictSet, hE, hA2, optStrTruthy, hA]

/-- Witness for claim C7 at concrete registrations: a mixed-case action
registration lower-cases both keys, a catch-all keeps its casing, an
action registration onto an existing catch-all slot errors, and the
mixed-case lookup of a registered action succeeds. -/
theorem register_key_casing_policy_witness :
    register "Pull_Request" (some "Opened") (3 : Nat) [] =
      Except.ok [("pull_request", HEntry.actions [("opened", 3)])] ∧
    register "Issues" none (4 : Nat) [] = Except.ok [("Issues", HEntry.catchAll 4)] ∧
    register "push" (some "created") (5 : Nat) [("push", HEntry.catchAll (6 : Nat))] =
      Except.error "Trying to register action handler to event with existing event handler" ∧
    route (dictSet [] (lowerStr "pull_request")
        (HEntry.actions (dictSet [] (lowerStr "opened") (3 : Nat)))) "PULL_REQUEST"
        (some "OPENED") =
      Except.ok 3 := by
  refine ⟨?_, ?_, ?_, ?_⟩
  · exact ((register_key_casing_policy (H := Nat)).2.1 "Pull_Request" "Opened" 3 [] (by decide)
      rfl).trans (by rfl)
  · exact (register_key_casing_policy (H := Nat)).2.2.1 "Issues" 4 []
  · exact (register_key_casing_policy (H := Nat)).2.2.2.1 "push" "created" 5
      [("push", HEntry.catchAll 6)] 6 (by decide) (by decide)
  · exact (register_key_casing_policy (H := Nat)).2.2.2.2 "pull_request" "opened" "PULL_REQUEST"
      "OPENED" 3 (by decide) (by decide) (by decide) (by decide)

lemma pagLoop_logs_nil (fetch : String → RunResult)
    (hf : ∀ (u : String) (s' : GHState) (r : Resp),
      fetch u = RunResult.success s' r → handle_error r.status r.message = none) :
    ∀ (fuel : Nat) (ou : Option String), (pagLoop fetch fuel ou).logs = [] := by
  intro fuel
  induction fuel with
  | zero =>
    intro ou
    cases ou <;> rfl
  | succ n ih =>
    intro ou
    cases ou with
    | none => rfl
    | some u =>
      rcases hfu : fetch u with ⟨s2, r2⟩ | ⟨s2, e2⟩ | ⟨s2, m2⟩ | s2
      · have hnone := hf u s2 r2 hfu
        have hcond : ¬ (400 ≤ r2.status ∧ r2.status < 600) := by
          intro hc
          unfold handle_error at hnone
          rw [if_pos hc] at hnone
          exact Option.noConfusion hnone
        simp [pagLoop, hfu, if_neg hcond, ih]
      · simp [pagLoop, hfu]
      · simp [pagLoop, hfu]
      · simp [pagLoop, hfu]

/-- Claim C4 counterexample: paginating against a server whose first
page answers 404 aborts immediately with the classified NotFound error:
no page error is logged, no items are yielded and the next link carried
by the errored response is never followed. -/
theorem get_paginated_response_counterexample :
    get_paginated_response fetchNotFound 3 "url" =
      ⟨[], [], PagOutcome.aborted (ReqErr.classified (ErrClass.notFound (some "Not Found")))⟩ := by
  decide

/-- Claim C4 (amended): a page-level HTTP error is raised inside the
request layer and aborts the whole pagination; the generator's internal
log-and-continue branch around raise_for_status is unreachable, because
the request layer only ever returns responses whose status is outside
the 400 to 599 range. -/
theorem paginate_page_error_aborts :
    (∀ (fuel : Nat) (s : GHState) (retry : Nat) (oracle : Nat → AttemptEnv) (k : Nat)
        (s' : GHState) (r : Resp),
      requestRun fuel s retry oracle k = RunResult.success s' r →
      handle_error r.status r.message = none) ∧
    (∀ (fetch : String → RunResult),
      (∀ (u : String) (s' : GHState) (r : Resp),
        fetch u = RunResult.success s' r → handle_error r.status r.message = none) →
      ∀ (fuel : Nat) (url : String), (get_paginated_response fetch fuel url).logs = []) ∧
    (∀ (fetch : String → RunResult) (fuel : Nat) (u : String) (su : GHState) (e : ReqErr),
      fetch u = RunResult.failure su e →
      pagLoop fetch (fuel + 1) (some u) = ⟨[], [], PagOutcome.aborted e⟩) := by
  refine ⟨fun fuel => requestRun_success_handle_error fuel, ?_, ?_⟩
  · intro fetch hf fuel url
    exact pagLoop_logs_nil fetch hf fuel _
  · intro fetch fuel u su e hfu
    simp [pagLoop, hfu]

/-- Witness for claim C4: an always-successful fetcher logs nothing over
three pages of fuel, a concrete successful driver run has a non-error
status, and the 404-backed fetcher aborts a pagination step. -/
theorem paginate_page_error_aborts_witness :
    (get_paginated_response fetchAlwaysOk 3 "url").logs = [] ∧
    handle_error 200 none = none ∧
    pagLoop fetchNotFound 3 (some "x") =
      ⟨[], [], PagOutcome.aborted (ReqErr.classified (ErrClass.notFound (some "Not Found")))⟩ := by
  refine ⟨?_, ?_, ?_⟩
  · refine paginate_page_error_aborts.2.1 fetchAlwaysOk ?_ 3 "url"
    intro u s' r h
    simp only [fetchAlwaysOk, RunResult.success.injEq] at h
    rw [← h.2]
    decide
  · exact paginate_page_error_aborts.1 1 stateOneToken 0 (fun _ => envOk) 0 stateOneToken
      ⟨200, none, [1, 2], none⟩ (by decide)
  · exact paginate_page_error_aborts.2.2 fetchNotFound 2 "x" stateOneToken
      (ReqErr.classified (ErrClass.notFound (some "Not Found"))) (by decide)

/-- Claim C5: when the first minting fails because the identity is
suspended, impersonate_user unsuspends the identity once before
re-minting, yields the freshly built impersonating instance, and
suspends the identity again on scope exit both when the body completes
and when it raises; a failing re-mint also suspends again, which is the
finally-block guarantee. -/
theorem impersonate_user_suspended_protocol (s : GHState) (u : String) (m1 m2 : MintEnv)
    (bodyOk : Bool) (hni : optStrTruthy s.impersonating = false)
    (h1 : handle_error m1.probeStatus m1.probeMessage =
      some (ErrClass.accountSuspended suspendedMessage))
    (h2 : handle_error m2.probeStatus m2.probeMessage = none) :
    impersonate_user s u m1 m2 bodyOk =
      ([Eff.mintAttempt u, Eff.unsuspendUser u unsuspendReason, Eff.mintAttempt u,
        Eff.yieldScope ⟨[m2.token], mkAuth m2.token, some u⟩, Eff.suspendUser u resuspendReason],
       if bodyOk then ImpOutcome.completed else ImpOutcome.bodyRaised) ∧
    (∀ (m3 : MintEnv) (e : ErrClass),
      handle_error m3.probeStatus m3.probeMessage = some e →
      impersonate_user s u m1 m3 bodyOk =
        ([Eff.mintAttempt u, Eff.unsuspendUser u unsuspendReason, Eff.mintAttempt u,
          Eff.suspendUser u resuspendReason],
         ImpOutcome.errored (ReqErr.classified e))) := by
  have hg1 : get_impersonation_token s u m1 =
      ([Eff.mintAttempt u],
       Except.error (ReqErr.classified (ErrClass.accountSuspended suspendedMessage))) := by
    unfold get_impersonation_token
    rw [if_neg (by simp [hni]), h1]
  have hg2 : get_impersonation_token s u m2 = ([Eff.mintAttempt u], Except.ok m2.token) := by
    unfold get_impersonation_token
    rw [if_neg (by simp [hni]), h2]
  constructor
  · unfold impersonate_user
    rw [hg1, hg2]
    rfl
  · intro m3 e h3
    have hg3 : get_impersonation_token s u m3 =
        ([Eff.mintAttempt u], Except.error (ReqErr.classified e)) := by
      unfold get_impersonation_token
      rw [if_neg (by simp [hni]), h3]
    unfold impersonate_user
    rw [hg1, hg3]
    rfl

/-- Witness for claim C5 at concrete inputs: a suspended first minting,
a successful re-mint with both body outcomes, and a failing re-mint. -/
theorem impersonate_user_suspended_protocol_witness :
    impersonate_user ⟨["admin"], mkAuth "admin", none⟩ "alice" ⟨"t1", 403, some suspendedMessage⟩
        ⟨"t2", 200, none⟩ true =
      ([Eff.mintAttempt "alice", Eff.unsuspendUser "alice" unsuspendReason,
        Eff.mintAttempt "alice", Eff.yieldScope ⟨["t2"], mkAuth "t2", some "alice"⟩,
        Eff.suspendUser "alice" resuspendReason], ImpOutcome.completed) ∧
    impersonate_user ⟨["admin"], mkAuth "admin", none⟩ "alice" ⟨"t1", 403, some suspendedMessage⟩
        ⟨"t2", 200, none⟩ false =
      ([Eff.mintAttempt "alice", Eff.unsuspendUser "alice" unsuspendReason,
        Eff.mintAttempt "alice", Eff.yieldScope ⟨["t2"], mkAuth "t2", some "alice"⟩,
        Eff.suspendUser "alice" resuspendReason], ImpOutcome.bodyRaised) ∧
    impersonate_user ⟨["admin"], mkAuth "admin", none⟩ "alice" ⟨"t1", 403, some suspendedMessage⟩
        ⟨"t3", 404, some "Not Found"⟩ true =
      ([Eff.mintAttempt "alice", Eff.unsuspendUser "alice" unsuspendReason,
        Eff.mintAttempt "alice", Eff.suspendUser "alice" resuspendReason],
       ImpOutcome.errored (ReqErr.classified (ErrClass.notFound (some "Not Found")))) := by
  refine ⟨?_, ?_, ?_⟩
  · exact (impersonate_user_suspended_protocol ⟨["admin"], mkAuth "admin", none⟩ "alice"
      ⟨"t1", 403, some suspendedMessage⟩ ⟨"t2", 200, none⟩ true rfl (by decide) (by decide)).1
  · exact (impersonate_user_suspended_protocol ⟨["admin"], mkAuth "admin", none⟩ "alice"
      ⟨"t1", 403, some suspendedMessage⟩ ⟨"t2", 200, none⟩ false rfl (by decide) (by decide)).1
  · exact (impersonate_user_suspended_protocol ⟨["admin"], mkAuth "admin", none⟩ "alice"
      ⟨"t1", 403, some suspendedMessage⟩ ⟨"t2", 200, none⟩ true rfl (by decide) (by decide)).2
      ⟨"t3", 404, some "Not Found"⟩ (ErrClass.notFound (some "Not Found")) (by decide)

/-- Claim C8: constructing with an empty token sequence always fails
with the configuration error, and construction, rotation, and every
state carried into a recursive continuation of request (including the
bad-credentials token replacement) preserve the invariant that the
token list is non-empty with the Authorization header derived from the
front token; whole driver runs preserve it as well. -/
theorem gateway_credential_invariants :
    (∀ imp, ghInit [] imp = Except.error "At least one github token must be provided") ∧
    (∀ (tokens : List String) (imp : Option String) (s : GHState),
      ghInit tokens imp = Except.ok s → wfState s) ∧
    (∀ s : GHState, wfState s → wfState (rotate_token s)) ∧
    (∀ (s : GHState) (retry : Nat) (env : AttemptEnv) (s' : GHState),
      wfState s → stepNextState (requestStep s retry env).2 = some s' → wfState s') ∧
    (∀ (fuel : Nat) (s : GHState) (retry : Nat) (oracle : Nat → AttemptEnv) (k : Nat),
      wfState s → wfState (runState (requestRun fuel s retry oracle k))) := by
  refine ⟨fun imp => rfl, ?_, rotate_token_wf, requestStep_next_wf, ?_⟩
  · intro tokens imp s h
    cases tokens with
    | nil => simp [ghInit] at h
    | cons t ts =>
      unfold ghInit at h
      injection h with h1
      rw [← h1]
      exact ⟨by simp, rfl⟩
  · intro fuel
    induction fuel with
    | zero =>
      intro s retry oracle k hwf
      exact hwf
    | succ n ih =>
      intro s retry oracle k hwf
      unfold requestRun
      rcases hst : requestStep s retry (oracle k) with ⟨tr, res⟩
      cases res with
      | ret resp => exact hwf
      | throwErr e => exact hwf
      | fatalRateLimit msg => exact hwf
      | recurseRotated s2 r2 =>
        exact ih s2 r2 oracle (k + 1)
          (requestStep_next_wf s retry (oracle k) s2 hwf (by rw [hst] ; rfl))
      | recurseSlept s2 r2 =>
        exact ih s2 r2 oracle (k + 1)
          (requestStep_next_wf s retry (oracle k) s2 hwf (by rw [hst] ; rfl))
      | recurseReplaced s2 r2 =>
        exact ih s2 r2 oracle (k + 1)
          (requestStep_next_wf s retry (oracle k) s2 hwf (by rw [hst] ; rfl))

/-- Witness for claim C8 at concrete inputs: the empty construction
fails, a one-token construction, a rotation, a rotation reached through
a request step, and a two-step driver run are all well-formed. -/
theorem gateway_credential_invariants_witness :
    ghInit [] none = Except.error "At least one github token must be provided" ∧
    wfState ⟨["a"], mkAuth "a", none⟩ ∧
    wfState (rotate_token ⟨["a", "b"], mkAuth "a", none⟩) ∧
    wfState (rotate_token ⟨["a", "b", "c"], mkAuth "a", none⟩) ∧
    wfState (runState (requestRun 2 stateOneToken 0 (fun _ => envOk) 0)) := by
  refine ⟨gateway_credential_invariants.1 none, ?_, ?_, ?_, ?_⟩
  · exact gateway_credential_invariants.2.1 ["a"] none ⟨["a"], mkAuth "a", none⟩ rfl
  · exact gateway_credential_invariants.2.2.1 ⟨["a", "b"], mkAuth "a", none⟩ ⟨by decide, rfl⟩
  · exact gateway_credential_invariants.2.2.2.1 ⟨["a", "b", "c"], mkAuth "a", none⟩ 0
      envRateLimited (rotate_token ⟨["a", "b", "c"], mkAuth "a", none⟩) ⟨by decide, rfl⟩
      (by decide)
  · exact gateway_credential_invariants.2.2.2.2 2 stateOneToken 0 (fun _ => envOk) 0
      ⟨by decide, rfl⟩

end Ghe
